import Mathlib

/-!
Shallow embedding of the signal-to-position decision engine of the
Btc-trading-bot repository, together with theorems checking its
natural-language specification.

Numbers are modelled as `ℚ` (the source uses IEEE doubles; every constant
and operation appearing in the verified claims is exact in `ℚ`, and the
only irrational operation, `Math.sqrt` in the volatility computation, is
kept symbolic via `VolValue`). JavaScript `null`/`undefined` fields become
`Option`, and JavaScript truthiness of a number (`x` truthy iff non-null,
non-zero, non-NaN) is modelled as `≠ 0` on the `Option`'s payload.
-/

/-! ### src/trading/types.ts -/

/-- `TradeActionType` from src/trading/types.ts. -/
inductive TradeActionType where
  | OPEN_LONG
  | OPEN_SHORT
  | CLOSE_POSITION
  | DO_NOTHING
deriving DecidableEq, Repr

/-- `TradeIntent` from src/trading/types.ts. -/
structure TradeIntent where
  action : TradeActionType
  riskFraction : ℚ
  note : Option String := none
deriving DecidableEq, Repr

/-- `PredictionResult` from src/trading/types.ts. The `direction` field is
declared as the union type `"LONG" | "SHORT"` in TypeScript; types are erased
at runtime, so it is modelled as a plain `String`, which also lets the
fail-closed branch of the intent mapper be stated. -/
structure PredictionResult where
  timestamp : String
  direction : String
  confidence : ℚ
  targetPrice : ℚ
  reasoning : String
deriving DecidableEq, Repr

/-! ### src/trading/intentMapper.ts -/

/-- `mapPredictionToTradeIntent` from src/trading/intentMapper.ts, embedded
branch for branch. -/
def mapPredictionToTradeIntent (pred : PredictionResult) : TradeIntent :=
  if pred.confidence < 55 then
    { action := .DO_NOTHING, riskFraction := 0, note := some pred.reasoning }
  else if pred.direction = "LONG" then
    { action := .OPEN_LONG, riskFraction := 3/10, note := some pred.reasoning }
  else if pred.direction = "SHORT" then
    { action := .OPEN_SHORT, riskFraction := 3/10, note := some pred.reasoning }
  else
    { action := .DO_NOTHING, riskFraction := 0, note := some pred.reasoning }

/-- The intent mapper as the specification words it (§4.2): used only to
compare with the source definition above. -/
def mapPredictionSpec (pred : PredictionResult) : TradeIntent :=
  { action :=
      if pred.confidence < 55 then .DO_NOTHING
      else if pred.direction = "LONG" then .OPEN_LONG
      else if pred.direction = "SHORT" then .OPEN_SHORT
      else .DO_NOTHING
    riskFraction :=
      if pred.confidence < 55 then 0
      else if pred.direction = "LONG" then 3/10
      else if pred.direction = "SHORT" then 3/10
      else 0
    note := some pred.reasoning }

/-! ### src/trading/predictionReader.ts -/

/-- A decoded JSON value as seen by the `typeof` checks of
`readLatestPrediction`; `jundef` models a missing field (property access on
the parsed object yields `undefined`), `jarr`/`jobj` stand for any array or
object value (never inspected further by the reader). -/
inductive JVal where
  | jstr (s : String)
  | jnum (q : ℚ)
  | jbool (b : Bool)
  | jnull
  | jundef
  | jarr
  | jobj
deriving DecidableEq, Repr

/-- `typeof v === "string"` on a decoded JSON value. -/
def JVal.isStrB : JVal → Bool
  | .jstr _ => true
  | _ => false

/-- `typeof v === "number"` on a decoded JSON value. -/
def JVal.isNumB : JVal → Bool
  | .jnum _ => true
  | _ => false

theorem JVal.isStrB_iff (v : JVal) : v.isStrB = true ↔ ∃ s, v = .jstr s := by
  cases v <;> simp [JVal.isStrB]

theorem JVal.isNumB_iff (v : JVal) : v.isNumB = true ↔ ∃ q, v = .jnum q := by
  cases v <;> simp [JVal.isNumB]

/-- The five properties `readLatestPrediction` reads off the parsed JSON. -/
structure ParsedPrediction where
  timestamp : JVal
  direction : JVal
  confidence : JVal
  targetPrice : JVal
  reasoning : JVal
deriving DecidableEq, Repr

/-- `readLatestPrediction` from src/trading/predictionReader.ts (validation
and field extraction; the file read and `JSON.parse` are I/O and enter the
model as the already-parsed argument, `none` standing for a falsy parse
result, which the source rejects with `!parsed`). -/
def readLatestPrediction (parsed : Option ParsedPrediction) :
    Except String PredictionResult :=
  match parsed with
  | none => .error "prediction.json is missing required fields or has invalid types."
  | some p =>
    match p.timestamp, p.direction, p.confidence, p.targetPrice, p.reasoning with
    | .jstr ts, .jstr dir, .jnum conf, .jnum tp, .jstr reas =>
      if dir = "LONG" ∨ dir = "SHORT" then
        .ok { timestamp := ts, direction := dir, confidence := conf,
              targetPrice := tp, reasoning := reas }
      else
        .error "prediction.json is missing required fields or has invalid types."
    | _, _, _, _, _ =>
      .error "prediction.json is missing required fields or has invalid types."

/-- The forecast input contract as the specification words it (§6): every
field present and well-typed, `direction` one of the two literal strings. -/
def forecastContractOk (parsed : Option ParsedPrediction) : Bool :=
  match parsed with
  | none => false
  | some p =>
    p.timestamp.isStrB &&
    (p.direction = .jstr "LONG" || p.direction = .jstr "SHORT") &&
    p.confidence.isNumB &&
    p.targetPrice.isNumB &&
    p.reasoning.isStrB

/-! ### src/data/fetchIndicators.ts -/

/-- `SpotStats` from src/data/fetchIndicators.ts (`high24h`/`low24h` are
optional fields). -/
structure SpotStats where
  price : ℚ
  change24hPct : ℚ
  volume24h : ℚ
  high24h : Option ℚ := none
  low24h : Option ℚ := none
deriving DecidableEq, Repr

/-- `TrendDirection` from src/data/fetchIndicators.ts. -/
inductive TrendDirection where
  | UP
  | DOWN
  | RANGE
deriving DecidableEq, Repr

/-- The value of the source's `volatility24hPct` field kept exact: the full
path stores `Math.sqrt` of a population variance (irrational in general), so
the square root is represented symbolically as `sqrtOf variance`, while the
degraded path stores a plain rational. -/
inductive VolValue where
  | plain (q : ℚ)
  | sqrtOf (q : ℚ)
deriving DecidableEq, Repr

/-- `DerivedIndicators` from src/data/fetchIndicators.ts. -/
structure DerivedIndicators where
  emaShort : ℚ
  emaLong : ℚ
  trendDirection : TrendDirection
  trendStrengthPct : ℚ
  volatility24hPct : VolValue
  volumeTrend24hPct : Option ℚ
deriving DecidableEq, Repr

/-- The fold of the source's EMA loop (`for` loop body of `computeEma`):
`ema = values[i] * k + ema * (1 - k)`. -/
def emaStep (k : ℚ) (ema : ℚ) (values : List ℚ) : ℚ :=
  match values with
  | [] => ema
  | v :: rest => emaStep k (v * k + ema * (1 - k)) rest

/-- `computeEma` from src/data/fetchIndicators.ts; the source throws on an
empty array, modelled by `none`. `k = 2 / (period + 1)`, seeded with the
first value. -/
def computeEma (values : List ℚ) (period : ℚ) : Option ℚ :=
  match values with
  | [] => none
  | v :: rest => some (emaStep (2 / (period + 1)) v rest)

/-- Modelled from the spec: the return-list computation as §4.1's edge-case
sentence words it — "zero or negative previous price in a return calculation
is skipped". Used only to compare with the source's `computeReturns`. -/
def computeReturnsSpec (values : List ℚ) : List ℚ :=
  match values with
  | [] => []
  | [_] => []
  | prev :: curr :: rest =>
    (if 0 < prev then [((curr - prev) / prev) * 100] else []) ++
      computeReturnsSpec (curr :: rest)

/-- The list of percent returns built by the loop of `computeStdDevPct`
(src/data/fetchIndicators.ts lines 56-63): one term per consecutive pair,
except that a pair whose previous value is exactly `0` is skipped
(`if (prev !== 0)`). -/
def computeReturns (values : List ℚ) : List ℚ :=
  match values with
  | [] => []
  | [_] => []
  | prev :: curr :: rest =>
    (if prev ≠ 0 then [((curr - prev) / prev) * 100] else []) ++
      computeReturns (curr :: rest)

/-- The population variance of the returns of `computeStdDevPct`; the source
returns `Math.sqrt` of this quantity (represented via `VolValue.sqrtOf`).
Short inputs and an empty returns list yield `0` as in the source. -/
def computeVariancePct (values : List ℚ) : ℚ :=
  if values.length < 2 then 0
  else
    let returns := computeReturns values
    if returns.length = 0 then 0
    else
      let mean := returns.sum / returns.length
      (returns.map (fun r => (r - mean) * (r - mean))).sum / returns.length

/-- `computeStdDevPct` from src/data/fetchIndicators.ts, with the final
`Math.sqrt` kept symbolic. -/
def computeStdDevPct (values : List ℚ) : VolValue :=
  .sqrtOf (computeVariancePct values)

/-- `Array.prototype.slice(-n)`: the last `n` elements (all of them when the
list is shorter). -/
def takeLast (n : ℕ) (l : List ℚ) : List ℚ :=
  l.drop (l.length - n)

/-- The derived-indicator computation of `fetchBtcIndicators`
(src/data/fetchIndicators.ts lines 147-245). The HTTP fetches are I/O and
enter the model as arguments: `spot` is the already-validated spot snapshot,
`pricePoints` and `volumePoints` are the chart arrays after the per-point
`Array.isArray(p) ? Number(p[1]) : NaN` step, `none` standing for a
non-finite entry (the subsequent `.filter(Number.isFinite)` is the
`filterMap id`). Returns `none` exactly where the source would throw. -/
def deriveIndicators (spot : SpotStats) (pricePoints : List (Option ℚ))
    (volumePoints : List (Option ℚ)) : Option DerivedIndicators :=
  let closes := pricePoints.filterMap id
  if 10 ≤ closes.length then
    -- full path
    let closesWindow := takeLast 48 closes
    let emaShortPeriod : ℕ := min 10 closesWindow.length
    let emaLongPeriod : ℕ := min 50 closesWindow.length
    match computeEma closesWindow emaShortPeriod,
          computeEma closesWindow emaLongPeriod with
    | some emaShort, some emaLong =>
      let trendDirection : TrendDirection :=
        if emaShort > emaLong * (1002/1000) then .UP
        else if emaShort < emaLong * (998/1000) then .DOWN
        else .RANGE
      let trendStrengthPct : ℚ :=
        if 24 < closes.length then
          let close24Ago := closes.getD (closes.length - 25) 0
          let lastClose := closes.getD (closes.length - 1) 0
          if close24Ago ≠ 0 then
            ((lastClose - close24Ago) / close24Ago) * 100
          else spot.change24hPct
        else spot.change24hPct
      let recentForVol := takeLast 24 closes
      let volatility24hPct :=
        computeStdDevPct (if 0 < recentForVol.length then recentForVol else closes)
      let volumeTrend24hPct : Option ℚ :=
        if 48 ≤ volumePoints.length then
          let volumes := volumePoints.filterMap id
          if 48 ≤ volumes.length then
            let last24 := (takeLast 24 volumes).sum
            let prev24 := ((takeLast 48 volumes).take 24).sum
            if 0 < prev24 then some (((last24 - prev24) / prev24) * 100)
            else none
          else none
        else none
      some { emaShort, emaLong, trendDirection, trendStrengthPct,
             volatility24hPct, volumeTrend24hPct }
    | _, _ => none
  else
    -- degraded path: derive everything from the spot snapshot
    let emaShort := spot.price
    let emaLong := spot.price
    let trendDirection : TrendDirection :=
      if spot.change24hPct > 2/10 then .UP
      else if spot.change24hPct < -(2/10) then .DOWN
      else .RANGE
    let trendStrengthPct := spot.change24hPct
    let volatility24hPct : VolValue :=
      match spot.high24h, spot.low24h with
      | some high, some low =>
        if high ≠ 0 ∧ low ≠ 0 ∧ 0 < spot.price then
          .plain (((high - low) / spot.price) * 100 / 2)
        else .plain (|spot.change24hPct| * (5/10))
      | _, _ => .plain (|spot.change24hPct| * (5/10))
    some { emaShort, emaLong, trendDirection, trendStrengthPct,
           volatility24hPct, volumeTrend24hPct := none }

/-! ### src/trading/jupiterPerps.ts -/

/-- `Side` from src/trading/jupiterPerps.ts. -/
inductive Side where
  | long
  | short
deriving DecidableEq, Repr

def SOL_MINT : String := "So11111111111111111111111111111111111111112"

def USDC_MINT : String := "EPjFWdd5AufqSSqeM2qN1xzybapC8G4wEGGkZwyTDt1v"

/-- `TP_THRESHOLD_PCT = 0.035`. -/
def TP_THRESHOLD_PCT : ℚ := 35/1000

/-- `SL_THRESHOLD_PCT = -0.035`. -/
def SL_THRESHOLD_PCT : ℚ := -(35/1000)

/-- `MAX_POSITION_AGE_MS = 24 * 60 * 60 * 1000`. -/
def MAX_POSITION_AGE_MS : ℚ := 24 * 60 * 60 * 1000

/-- A raw numeric-ish field of an API position object, as consumed by
`numOrNull`: a finite number, a string that parses to a finite number, a
string that does not, an absent (`undefined`/`null`) field, or a value of
any other type. Non-finite numbers (`NaN`, `±Infinity`), which `numOrNull`
also maps to `null`, are folded into `rother`. -/
inductive RawNum where
  | rnum (q : ℚ)
  | rstrNum (q : ℚ)
  | rstrBad
  | rmissing
  | rother
deriving DecidableEq, Repr

/-- `numOrNull` from src/trading/jupiterPerps.ts. -/
def numOrNull (v : RawNum) : Option ℚ :=
  match v with
  | .rnum q => some q
  | .rstrNum q => some q
  | .rstrBad => none
  | .rmissing => none
  | .rother => none

/-- A raw creation-time field: a finite number, a numeric string, a date
string that `Date.parse` resolves to `ms` epoch milliseconds, an unparsable
string, a `Date` object, an absent field, or anything else. -/
inductive CreatedVal where
  | cnum (q : ℚ)
  | cstrNum (q : ℚ)
  | cstrDate (ms : ℤ)
  | cstrBad
  | cdate (ms : ℤ)
  | cmissing
deriving DecidableEq, Repr

/-- `String.prototype.toLowerCase()`, implemented character-wise (as the
JavaScript method behaves on the ASCII side strings involved here). -/
def toLowerStr (s : String) : String := ⟨s.data.map Char.toLower⟩

/-- The raw position object returned by the perps positions API, restricted
to the fields `normalizePerpsPosition` reads (the source keeps the whole
object in `raw`, used only for logging). `side`/`positionSide` carry the
string form of the field after `.toString()`. -/
structure RawPos where
  side : Option String := none
  positionSide : Option String := none
  entryPriceUsd : RawNum := .rmissing
  entryPrice : RawNum := .rmissing
  avgEntryPriceUsd : RawNum := .rmissing
  avgEntryPrice : RawNum := .rmissing
  markPriceUsd : RawNum := .rmissing
  indexPriceUsd : RawNum := .rmissing
  oraclePriceUsd : RawNum := .rmissing
  currentPriceUsd : RawNum := .rmissing
  price : RawNum := .rmissing
  createdAt : Option CreatedVal := none
  createdTs : Option CreatedVal := none
  timestamp : Option CreatedVal := none
  openedAt : Option CreatedVal := none
  openTime : Option CreatedVal := none
  positionSizeUsd : RawNum := .rmissing
  sizeUsd : RawNum := .rmissing
  notionalUsd : RawNum := .rmissing
  size : RawNum := .rmissing
deriving DecidableEq, Repr

/-- `NormalizedPerpsPosition` from src/trading/jupiterPerps.ts (the `raw`
field, used only for logging, is dropped). -/
structure NormalizedPerpsPosition where
  side : Side
  entryPrice : Option ℚ
  markPrice : Option ℚ
  createdAtMs : Option ℚ
  sizeUsd : Option ℚ
deriving DecidableEq, Repr

/-- The `createdAtMs` extraction of `normalizePerpsPosition`: numbers and
numeric strings above `3_000_000_000` are taken as milliseconds, below as
seconds; date strings and `Date` objects contribute their epoch
milliseconds. -/
def createdAtMsOf (createdField : Option CreatedVal) : Option ℚ :=
  match createdField with
  | none => none
  | some (.cnum q) => some (if q > 3000000000 then q else q * 1000)
  | some (.cstrNum ts) => some (if ts > 3000000000 then ts else ts * 1000)
  | some (.cstrDate ms) => some (ms : ℚ)
  | some (.cstrBad) => none
  | some (.cdate ms) => some (ms : ℚ)
  | some (.cmissing) => none

/-- `normalizePerpsPosition` from src/trading/jupiterPerps.ts: lower-cases
the side, resolves each numeric field through the source's `??` chains, and
fails (`none`) when the side is neither "long" nor "short". The `!p` guard
of the source is subsumed: the positions filter already dropped falsy
entries. -/
def normalizePerpsPosition (p : RawPos) : Option NormalizedPerpsPosition :=
  let sideRaw := toLowerStr ((p.side.or p.positionSide).getD "")
  let side : Option Side :=
    if sideRaw = "long" then some .long
    else if sideRaw = "short" then some .short
    else none
  match side with
  | none => none
  | some side =>
    let entryPrice :=
      (numOrNull p.entryPriceUsd).or <| (numOrNull p.entryPrice).or <|
        (numOrNull p.avgEntryPriceUsd).or (numOrNull p.avgEntryPrice)
    let markPrice :=
      (numOrNull p.markPriceUsd).or <| (numOrNull p.indexPriceUsd).or <|
        (numOrNull p.oraclePriceUsd).or <|
          (numOrNull p.currentPriceUsd).or (numOrNull p.price)
    let createdField :=
      (p.createdAt.or p.createdTs).or <| (p.timestamp.or p.openedAt).or p.openTime
    let sizeUsd :=
      (numOrNull p.positionSizeUsd).or <| (numOrNull p.sizeUsd).or <|
        (numOrNull p.notionalUsd).or (numOrNull p.size)
    some { side, entryPrice, markPrice,
           createdAtMs := createdAtMsOf createdField, sizeUsd }

/-- The exit reason of `evaluateExitDecision`; the source formats these as
strings ("Signal flipped direction", "Take profit triggered (...)",
"Stop loss triggered (...)", "Max position age exceeded (24h)"), modelled as
tags since only identity matters downstream. -/
inductive ExitReason where
  | signalFlip
  | takeProfit
  | stopLoss
  | maxAge
deriving DecidableEq, Repr

/-- The max-age check at the end of `evaluateExitDecision`
(`if (pos.createdAtMs) { ... }` followed by the default hold): reached when
neither the flip nor a price trigger fired. `now` is `Date.now()`. -/
def ageExit (pos : NormalizedPerpsPosition) (now : ℚ) : Option ExitReason :=
  match pos.createdAtMs with
  | some c =>
    if c ≠ 0 ∧ now - c ≥ MAX_POSITION_AGE_MS then some .maxAge else none
  | none => none

/-- `evaluateExitDecision` from src/trading/jupiterPerps.ts.
`{shouldClose := true, reason := r}` is modelled as `some r` and
`{shouldClose := false, reason := null}` as `none`. The truthiness test
`if (pos.entryPrice && pos.markPrice)` requires both prices present and
non-zero. -/
def evaluateExitDecision (pos : NormalizedPerpsPosition)
    (intent : TradeIntent) (now : ℚ) : Option ExitReason :=
  if (intent.action = .OPEN_LONG ∧ pos.side = .short) ∨
     (intent.action = .OPEN_SHORT ∧ pos.side = .long) then
    some .signalFlip
  else
    match pos.entryPrice, pos.markPrice with
    | some entry, some mark =>
      if entry ≠ 0 ∧ mark ≠ 0 then
        let movePct :=
          match pos.side with
          | .long => (mark - entry) / entry
          | .short => (entry - mark) / entry
        if movePct ≥ TP_THRESHOLD_PCT then some .takeProfit
        else if movePct ≤ SL_THRESHOLD_PCT then some .stopLoss
        else ageExit pos now
      else ageExit pos now
    | _, _ => ageExit pos now

/-- The decrease (reduce-only) payload posted for a close, restricted to the
decision-relevant fields (the source also sends constant slippage/fee/wallet
fields and `marketMint = SOL_MINT`). `sizeUsdDelta` is sent as a decimal
string of this integer. -/
structure ClosePayload where
  side : Side
  inputMint : String
  collateralMint : String
  sizeUsdDelta : ℤ
  collateralTokenDelta : ℤ
  reduceOnly : Bool
deriving DecidableEq, Repr

/-- The increase payload posted for an open, together with the observables
the source computes alongside it (`collateralUsd`, `intendedLeverage`);
constant slippage/fee/wallet fields are omitted. -/
structure OpenOrder where
  side : Side
  inputMint : String
  collateralMint : String
  inputTokenAmount : ℤ
  collateralTokenDelta : ℤ
  sizeUsdDelta : ℤ
  collateralUsd : ℚ
  intendedLeverage : ℚ
deriving DecidableEq, Repr

/-- What one call of `buildAndSendPerpsTx` posts to the perps API: nothing
(every `return null` taken before a request is built), a reduce-only close
request, or an open (increase) request. -/
inductive PerpsOutcome where
  | skip
  | closeOrder (p : ClosePayload)
  | openOrder (p : OpenOrder)
deriving DecidableEq, Repr

def PerpsOutcome.isOpenOrder : PerpsOutcome → Bool
  | .openOrder _ => true
  | _ => false

/-- The assumed SOL price (`assumedSolPriceUsd = 100`). -/
def assumedSolPriceUsd : ℚ := 100

/-- The venue minimum collateral (`minCollateralUsd = 10`). -/
def minCollateralUsd : ℚ := 10

/-- The open-position branch of `buildAndSendPerpsTx`
(src/trading/jupiterPerps.ts lines 480-563) once a usable collateral balance
`balanceUsd` is known: notional sizing, the `$1` minimum-notional check, the
minimum-collateral/leverage bumps, and the increase payload. -/
def openPerpsOrder (side : Side) (balanceUsd : ℚ) (riskFraction : ℚ) :
    PerpsOutcome :=
  let isShort := side = Side.short
  let targetUsd := max 0 (min (balanceUsd * riskFraction) 10)
  if targetUsd < 1 then .skip
  else
    let adjustedTargetUsd := max targetUsd (minCollateralUsd * (12/10))
    let collateralUsd := minCollateralUsd
    let sizeUsdTarget := max adjustedTargetUsd (collateralUsd * (13/10))
    let sizeUsdDelta : ℤ := max 1 ⌊sizeUsdTarget * 1000000⌋
    let intendedLeverage := (sizeUsdDelta : ℚ) / 1000000 / collateralUsd
    let collateralTokenDelta : ℤ :=
      if isShort then max 1 ⌊collateralUsd * 1000000⌋
      else max 1 ⌊(collateralUsd / assumedSolPriceUsd) * 1000000000⌋
    .openOrder
      { side
        inputMint := if isShort then USDC_MINT else SOL_MINT
        collateralMint := if isShort then USDC_MINT else SOL_MINT
        inputTokenAmount := collateralTokenDelta
        collateralTokenDelta
        sizeUsdDelta
        collateralUsd
        intendedLeverage }

/-- `buildAndSendPerpsTx` from src/trading/jupiterPerps.ts, as a pure
decision function over the tick's already-fetched inputs:
`positions` is the result of `fetchOpenPerpsPositions` (`none` when that
query failed, the filtered open-position list otherwise), `balanceLamports`
the bot's SOL balance, `usdcBalance` the result of `getUsdcBalance` (already
`0` on any token-account error), and `now` is `Date.now()`. The returned
`PerpsOutcome` is the request the source would post (submission itself is
I/O beyond the decision). -/
def buildAndSendPerpsTx (intent : TradeIntent)
    (positions : Option (List RawPos)) (balanceLamports : ℤ)
    (usdcBalance : ℚ) (now : ℚ) : PerpsOutcome :=
  if intent.action = .DO_NOTHING then .skip
  else
    match positions with
    | none => .skip
    | some l =>
      if 0 < l.length then
        match l.filterMap normalizePerpsPosition with
        | [] => .skip
        | currentPos :: _ =>
          match evaluateExitDecision currentPos intent now with
          | some _ =>
            match currentPos.sizeUsd with
            | some s =>
              if 0 < s then
                .closeOrder
                  { side := currentPos.side
                    inputMint :=
                      if currentPos.side = Side.short then USDC_MINT else SOL_MINT
                    collateralMint :=
                      if currentPos.side = Side.short then USDC_MINT else SOL_MINT
                    sizeUsdDelta := max 1 ⌈s * 1000000⌉
                    collateralTokenDelta := 0
                    reduceOnly := true }
              else .skip
            | none => .skip
          | none => .skip
      else
        let side : Side := if intent.action = .OPEN_LONG then .long else .short
        let isShort := side = Side.short
        let balanceSol := (balanceLamports : ℚ) / 1000000000
        if balanceSol ≤ 0 then .skip
        else if isShort then
          if usdcBalance < minCollateralUsd then .skip
          else openPerpsOrder side usdcBalance intent.riskFraction
        else
          let balanceUsd := balanceSol * assumedSolPriceUsd
          let requiredCollateralLamports : ℤ :=
            ⌈(minCollateralUsd / assumedSolPriceUsd) * 1000000000⌉
          if balanceLamports < requiredCollateralLamports then .skip
          else openPerpsOrder side balanceUsd intent.riskFraction

/-! ### Claim theorems -/

/-- C3: `mapPredictionToTradeIntent` is a pure total function that agrees
everywhere with the specification's mapping (§4.2): confidence below 55
yields DO_NOTHING with risk 0, otherwise LONG/SHORT yield OPEN_LONG /
OPEN_SHORT with risk 0.3, and any other direction value fails closed to
DO_NOTHING with risk 0. In particular confidence 54.9 with LONG gives
DO_NOTHING, 55 with LONG gives OPEN_LONG at risk 0.3, and 90 with SHORT
gives OPEN_SHORT at risk 0.3. -/
theorem mapPredictionToTradeIntent_spec :
    (∀ pred : PredictionResult,
        mapPredictionToTradeIntent pred = mapPredictionSpec pred) ∧
    mapPredictionToTradeIntent ⟨"t", "LONG", 549/10, 1, "r"⟩ =
      { action := .DO_NOTHING, riskFraction := 0, note := some "r" } ∧
    mapPredictionToTradeIntent ⟨"t", "LONG", 55, 1, "r"⟩ =
      { action := .OPEN_LONG, riskFraction := 3/10, note := some "r" } ∧
    mapPredictionToTradeIntent ⟨"t", "SHORT", 90, 1, "r"⟩ =
      { action := .OPEN_SHORT, riskFraction := 3/10, note := some "r" } := by
  refine ⟨fun pred => ?_, by norm_num [mapPredictionToTradeIntent],
    by norm_num [mapPredictionToTradeIntent],
    ?_⟩
  · unfold mapPredictionToTradeIntent mapPredictionSpec
    split_ifs <;> rfl
  · norm_num [mapPredictionToTradeIntent]
    intro h
    exact absurd h (by decide)

/-- C2: the signal-flip trigger has first precedence in
`evaluateExitDecision`: whenever the incoming intent requests the side
opposite the open position, the decision is the signal-flip reason — for
every entry/mark price pair (including ones past the take-profit threshold)
and every position age. -/
theorem evaluateExitDecision_flip_first (pos : NormalizedPerpsPosition)
    (intent : TradeIntent) (now : ℚ)
    (h : (intent.action = .OPEN_LONG ∧ pos.side = .short) ∨
         (intent.action = .OPEN_SHORT ∧ pos.side = .long)) :
    evaluateExitDecision pos intent now = some .signalFlip := by
  unfold evaluateExitDecision
  rw [if_pos h]

/-- C2 witness: a LONG position with entry 100 and mark 104 (a +4% move,
beyond the 3.5% take-profit threshold) met by an OPEN_SHORT intent closes
with the signal-flip reason, not take-profit. -/
theorem evaluateExitDecision_flip_first_witness :
    ((((⟨.OPEN_SHORT, 3/10, none⟩ : TradeIntent).action = .OPEN_LONG ∧
        ({ side := .long, entryPrice := some 100, markPrice := some 104,
           createdAtMs := none, sizeUsd := none } :
          NormalizedPerpsPosition).side = .short) ∨
      ((⟨.OPEN_SHORT, 3/10, none⟩ : TradeIntent).action = .OPEN_SHORT ∧
        ({ side := .long, entryPrice := some 100, markPrice := some 104,
           createdAtMs := none, sizeUsd := none } :
          NormalizedPerpsPosition).side = .long))) ∧
    ((104 - 100 : ℚ) / 100 ≥ TP_THRESHOLD_PCT) ∧
    evaluateExitDecision
      { side := .long, entryPrice := some 100, markPrice := some 104,
        createdAtMs := none, sizeUsd := none }
      ⟨.OPEN_SHORT, 3/10, none⟩ 0 = some .signalFlip :=
  ⟨by decide, by norm_num [TP_THRESHOLD_PCT],
   evaluateExitDecision_flip_first _ _ _ (by decide)⟩

/-- C7 counterexample: a consecutive pair whose previous price is negative
is not skipped by the source's return loop — on `[-1, 1]` the source
produces the return term `-200`, while the specification's "zero or
negative previous price is skipped" rule would produce no term at all. -/
theorem computeReturns_negPrev_cex :
    computeReturns [-1, 1] = [-200] ∧ computeReturnsSpec [-1, 1] = [] := by
  norm_num [computeReturns, computeReturnsSpec]

/-- C7 amended: the return computation is total, a consecutive pair whose
previous price is exactly zero is skipped and contributes no return term,
and a pair with non-zero (including negative) previous price contributes
exactly its percent-return term. -/
theorem computeReturns_skip_zero_only :
    (∀ (b : ℚ) (rest : List ℚ),
        computeReturns (0 :: b :: rest) = computeReturns (b :: rest)) ∧
    (∀ (a b : ℚ) (rest : List ℚ), a ≠ 0 →
        computeReturns (a :: b :: rest) =
          ((b - a) / a) * 100 :: computeReturns (b :: rest)) := by
  constructor
  · intro b rest
    simp [computeReturns]
  · intro a b rest h
    simp [computeReturns, h]

/-- C7 amended, witness: the zero-prev pair of `[0, 5, 7]` is dropped, and
the negative-prev pair of `[-1, 1]` contributes its term. -/
theorem computeReturns_skip_zero_only_witness :
    (computeReturns [0, 5, 7] = computeReturns [5, 7]) ∧
    ((-1 : ℚ) ≠ 0) ∧
    computeReturns [-1, 1] = ((1 - (-1) : ℚ) / (-1)) * 100 :: computeReturns [1] :=
  ⟨computeReturns_skip_zero_only.1 5 [7], by norm_num,
   computeReturns_skip_zero_only.2 (-1) 1 [] (by norm_num)⟩

/-- C4: for every close series with fewer than 10 finite points the
indicator computation takes the degraded path and returns, without failing,
`emaShort = emaLong = snapshot.price`, the trend direction classified from
`change24hPct` against the ±0.2 thresholds, and no volume trend. -/
theorem deriveIndicators_degraded (spot : SpotStats)
    (pricePoints volumePoints : List (Option ℚ))
    (h : (pricePoints.filterMap id).length < 10) :
    ((deriveIndicators spot pricePoints volumePoints).map
        DerivedIndicators.emaShort = some spot.price) ∧
    ((deriveIndicators spot pricePoints volumePoints).map
        DerivedIndicators.emaLong = some spot.price) ∧
    ((deriveIndicators spot pricePoints volumePoints).map
        DerivedIndicators.trendDirection =
      some (if spot.change24hPct > 2/10 then .UP
            else if spot.change24hPct < -(2/10) then .DOWN
            else .RANGE)) ∧
    ((deriveIndicators spot pricePoints volumePoints).map
        DerivedIndicators.volumeTrend24hPct = some none) := by
  have hlt : ¬ 10 ≤ (pricePoints.filterMap id).length := by omega
  simp [deriveIndicators, hlt]

/-- C4 witness: an empty chart series with spot price 50000 and +1% 24h
change degrades to `emaShort = emaLong = 50000`, trend UP, and no volume
trend. -/
theorem deriveIndicators_degraded_witness :
    ((([] : List (Option ℚ)).filterMap id).length < 10) ∧
    ((deriveIndicators ⟨50000, 1, 10, none, none⟩ [] []).map
        DerivedIndicators.emaShort = some 50000) ∧
    ((deriveIndicators ⟨50000, 1, 10, none, none⟩ [] []).map
        DerivedIndicators.emaLong = some 50000) ∧
    ((deriveIndicators ⟨50000, 1, 10, none, none⟩ [] []).map
        DerivedIndicators.trendDirection = some .UP) ∧
    ((deriveIndicators ⟨50000, 1, 10, none, none⟩ [] []).map
        DerivedIndicators.volumeTrend24hPct = some none) := by
  have h := deriveIndicators_degraded ⟨50000, 1, 10, none, none⟩ [] []
    (by decide)
  refine ⟨by decide, h.1, h.2.1, ?_, h.2.2.2⟩
  rw [h.2.2.1]
  norm_num

/-- C8: `readLatestPrediction` succeeds exactly when the parsed value and
all five forecast fields pass the contract checks — timestamp a string,
direction the string "LONG" or "SHORT", confidence and targetPrice numbers,
reasoning a string — and on success it returns precisely those five field
values taken from the input. -/
theorem readLatestPrediction_contract (parsed : Option ParsedPrediction) :
    ((readLatestPrediction parsed).isOk = forecastContractOk parsed) ∧
    (∀ p r, parsed = some p → readLatestPrediction parsed = .ok r →
      p.timestamp = .jstr r.timestamp ∧ p.direction = .jstr r.direction ∧
      p.confidence = .jnum r.confidence ∧
      p.targetPrice = .jnum r.targetPrice ∧
      p.reasoning = .jstr r.reasoning) := by
  constructor
  · cases parsed with
    | none => rfl
    | some p =>
      simp only [readLatestPrediction, forecastContractOk]
      split
      case _ h1 h2 h3 h4 h5 =>
        rename_i ts dir conf tp reas
        by_cases hd : dir = "LONG" ∨ dir = "SHORT"
        · rcases hd with h | h <;>
            simp_all [Except.isOk, Except.toBool, JVal.isStrB, JVal.isNumB]
        · push_neg at hd
          simp_all [Except.isOk, Except.toBool, JVal.isStrB, JVal.isNumB,
            hd.1, hd.2]
      case _ hno =>
        symm
        show _ = (false : Bool)
        rw [Bool.eq_false_iff]
        intro hb
        simp only [Bool.and_eq_true, Bool.or_eq_true, decide_eq_true_eq] at hb
        obtain ⟨⟨⟨⟨hts, hdir⟩, hconf⟩, htp⟩, hre⟩ := hb
        obtain ⟨ts, h1⟩ := (JVal.isStrB_iff _).mp hts
        obtain ⟨cf, h3⟩ := (JVal.isNumB_iff _).mp hconf
        obtain ⟨tpv, h4⟩ := (JVal.isNumB_iff _).mp htp
        obtain ⟨rs, h5⟩ := (JVal.isStrB_iff _).mp hre
        rcases hdir with h2 | h2
        · exact hno ts "LONG" cf tpv rs h1 h2 h3 h4 h5
        · exact hno ts "SHORT" cf tpv rs h1 h2 h3 h4 h5
  · intro p r hp hok
    subst hp
    revert hok
    simp only [readLatestPrediction]
    split
    case _ h1 h2 h3 h4 h5 =>
      rename_i ts dir conf tp reas
      intro hok
      split at hok
      · cases hok
        exact ⟨h1, h2, h3, h4, h5⟩
      · simp at hok
    case _ hno =>
      intro hok
      simp at hok

/-- C8 witness: a fully well-typed forecast record is accepted and its five
fields are returned unchanged. -/
theorem readLatestPrediction_contract_witness :
    readLatestPrediction
        (some ⟨.jstr "2024-01-01T00:00:00Z", .jstr "LONG", .jnum 70,
          .jnum 100000, .jstr "momentum"⟩) =
      Except.ok ⟨"2024-01-01T00:00:00Z", "LONG", 70, 100000, "momentum"⟩ ∧
    ((⟨.jstr "2024-01-01T00:00:00Z", .jstr "LONG", .jnum 70, .jnum 100000,
        .jstr "momentum"⟩ : ParsedPrediction).timestamp =
          .jstr "2024-01-01T00:00:00Z" ∧
      (⟨.jstr "2024-01-01T00:00:00Z", .jstr "LONG", .jnum 70, .jnum 100000,
        .jstr "momentum"⟩ : ParsedPrediction).direction = .jstr "LONG" ∧
      (⟨.jstr "2024-01-01T00:00:00Z", .jstr "LONG", .jnum 70, .jnum 100000,
        .jstr "momentum"⟩ : ParsedPrediction).confidence = .jnum 70 ∧
      (⟨.jstr "2024-01-01T00:00:00Z", .jstr "LONG", .jnum 70, .jnum 100000,
        .jstr "momentum"⟩ : ParsedPrediction).targetPrice = .jnum 100000 ∧
      (⟨.jstr "2024-01-01T00:00:00Z", .jstr "LONG", .jnum 70, .jnum 100000,
        .jstr "momentum"⟩ : ParsedPrediction).reasoning = .jstr "momentum") :=
  ⟨rfl,
   (readLatestPrediction_contract
       (some ⟨.jstr "2024-01-01T00:00:00Z", .jstr "LONG", .jnum 70,
         .jnum 100000, .jstr "momentum"⟩)).2
     ⟨.jstr "2024-01-01T00:00:00Z", .jstr "LONG", .jnum 70, .jnum 100000,
       .jstr "momentum"⟩
     ⟨"2024-01-01T00:00:00Z", "LONG", 70, 100000, "momentum"⟩ rfl rfl⟩

/-- The EMA loop keeps its accumulator inside any interval containing the
seed and all remaining values, because each step is a convex combination
with weight `k ∈ [0, 1]`. -/
theorem emaStep_bounds (k lo hi : ℚ) (hk0 : 0 ≤ k) (hk1 : k ≤ 1) :
    ∀ (values : List ℚ) (ema : ℚ), lo ≤ ema → ema ≤ hi →
      (∀ v ∈ values, lo ≤ v ∧ v ≤ hi) →
      lo ≤ emaStep k ema values ∧ emaStep k ema values ≤ hi := by
  intro values
  induction values with
  | nil =>
    intro ema h1 h2 _
    simpa [emaStep] using And.intro h1 h2
  | cons v vs ih =>
    intro ema h1 h2 hmem
    have hv := hmem v (List.mem_cons_self v vs)
    have hlo : lo ≤ v * k + ema * (1 - k) := by nlinarith [hv.1, hv.2]
    have hhi : v * k + ema * (1 - k) ≤ hi := by nlinarith [hv.1, hv.2]
    have hrec := ih (v * k + ema * (1 - k)) hlo hhi
      (fun w hw => hmem w (List.mem_cons_of_mem _ hw))
    simpa [emaStep] using hrec

/-- C9: on every non-empty, strictly increasing closing-price window and
every period ≥ 1, `computeEma` succeeds and its value lies between the
minimum and the maximum of the window. -/
theorem computeEma_bounded (l : List ℚ) (period : ℚ) (hne : l ≠ [])
    (hinc : l.Chain' (· < ·)) (hp : 1 ≤ period) :
    ∃ e lo hi, computeEma l period = some e ∧ l.min? = some lo ∧
      l.max? = some hi ∧ lo ≤ e ∧ e ≤ hi := by
  match l, hne with
  | a :: rest, _ =>
    have hper : 0 < period + 1 := by linarith
    have hk0 : (0 : ℚ) ≤ 2 / (period + 1) := by positivity
    have hk1 : 2 / (period + 1) ≤ 1 := by
      rw [div_le_one hper]; linarith
    haveI : Std.Antisymm (fun (x1 x2 : ℚ) => x1 ≤ x2) :=
      ⟨fun h1 h2 => le_antisymm h1 h2⟩
    have hminex : (a :: rest).min? = some (rest.foldl min a) := rfl
    have hmaxex : (a :: rest).max? = some (rest.foldl max a) := rfl
    have hmin := (List.min?_eq_some_iff le_refl min_choice
      (fun _ _ _ => le_min_iff)).mp hminex
    have hmax := (List.max?_eq_some_iff le_refl max_choice
      (fun _ _ _ => max_le_iff)).mp hmaxex
    refine ⟨emaStep (2 / (period + 1)) a rest, rest.foldl min a,
      rest.foldl max a, rfl, hminex, hmaxex, ?_, ?_⟩ <;>
    · have hb := emaStep_bounds (2 / (period + 1)) (rest.foldl min a)
        (rest.foldl max a) hk0 hk1 rest a
        (hmin.2 a (List.mem_cons_self a rest))
        (hmax.2 a (List.mem_cons_self a rest))
        (fun v hv => ⟨hmin.2 v (List.mem_cons_of_mem _ hv),
          hmax.2 v (List.mem_cons_of_mem _ hv)⟩)
      first
        | exact hb.1
        | exact hb.2

/-- C9 witness: on the strictly increasing window `[1, 2, 3]` with period 2
the EMA exists and lies between 1 and 3. -/
theorem computeEma_bounded_witness :
    (([1, 2, 3] : List ℚ) ≠ []) ∧
    (([1, 2, 3] : List ℚ).Chain' (· < ·)) ∧
    ((1 : ℚ) ≤ 2) ∧
    (∃ e lo hi, computeEma [1, 2, 3] 2 = some e ∧
      ([1, 2, 3] : List ℚ).min? = some lo ∧
      ([1, 2, 3] : List ℚ).max? = some hi ∧ lo ≤ e ∧ e ≤ hi) :=
  ⟨by simp, by norm_num [List.chain'_cons], by norm_num,
   computeEma_bounded [1, 2, 3] 2 (by simp) (by norm_num [List.chain'_cons])
     (by norm_num)⟩

/-- C1: an increase (open) request is built only when the open-positions
query succeeded and returned an empty list — if the query failed (`none`)
or any open position exists, `buildAndSendPerpsTx` never reaches the open
branch. -/
theorem buildAndSendPerpsTx_open_requires_flat
    (intent : TradeIntent) (positions : Option (List RawPos))
    (balanceLamports : ℤ) (usdcBalance : ℚ) (now : ℚ) (p : OpenOrder)
    (h : buildAndSendPerpsTx intent positions balanceLamports usdcBalance now
        = .openOrder p) :
    positions = some [] := by
  unfold buildAndSendPerpsTx at h
  split at h
  · simp at h
  · split at h
    · simp at h
    · rename_i l
      split at h
      · repeat' split at h
        all_goals simp_all
      · rename_i hlen
        have hl : l = [] := by
          cases l with
          | nil => rfl
          | cons a as => simp at hlen
        rw [hl]

/-- C1 witness: a funded OPEN_LONG tick whose positions query returned the
empty list does produce an open order, and the theorem forces the query
result to have been `some []`. -/
theorem buildAndSendPerpsTx_open_requires_flat_witness :
    buildAndSendPerpsTx ⟨.OPEN_LONG, 3/10, none⟩ (some []) 1000000000 0 0 =
      .openOrder ⟨.long, SOL_MINT, SOL_MINT, 100000000, 100000000, 13000000,
        10, 13/10⟩ ∧
    (some [] : Option (List RawPos)) = some [] := by
  have heval : buildAndSendPerpsTx ⟨.OPEN_LONG, 3/10, none⟩ (some [])
      1000000000 0 0 =
      .openOrder ⟨.long, SOL_MINT, SOL_MINT, 100000000, 100000000, 13000000,
        10, 13/10⟩ := by
    norm_num [buildAndSendPerpsTx, openPerpsOrder, min_def, max_def,
      assumedSolPriceUsd, minCollateralUsd]
    rfl
  exact ⟨heval,
    buildAndSendPerpsTx_open_requires_flat _ _ _ _ _ _ heval⟩

/-- C5: with available collateral under the venue minimum of $10 — USDC
balance below 10 for a short, SOL worth less than $10 at the assumed price
for a long — no open order is emitted. -/
theorem buildAndSendPerpsTx_min_collateral_guard
    (intent : TradeIntent) (positions : Option (List RawPos))
    (balanceLamports : ℤ) (usdcBalance : ℚ) (now : ℚ)
    (h : (intent.action = .OPEN_SHORT ∧ usdcBalance < minCollateralUsd) ∨
         (intent.action = .OPEN_LONG ∧
           ((balanceLamports : ℚ) / 1000000000) * assumedSolPriceUsd <
             minCollateralUsd)) :
    (buildAndSendPerpsTx intent positions balanceLamports usdcBalance
        now).isOpenOrder = false := by
  unfold buildAndSendPerpsTx
  split
  · rfl
  · split
    · rfl
    · rename_i l
      split
      · repeat' split
        all_goals rfl
      · split
        case isTrue hlong =>
          dsimp only
          split
          · rfl
          · split
            case isTrue hside => exact absurd hside (by simp)
            case isFalse hside =>
              split
              · rfl
              · rename_i hge
                exfalso
                rcases h with ⟨ha, hb⟩ | ⟨ha, hb⟩
                · rw [ha] at hlong
                  exact absurd hlong (by simp)
                · apply hge
                  have hq : (balanceLamports : ℚ) < 100000000 := by
                    rw [assumedSolPriceUsd, minCollateralUsd] at hb
                    linarith
                  have hceil : (⌈(minCollateralUsd / assumedSolPriceUsd) *
                      1000000000⌉ : ℤ) = 100000000 := by
                    norm_num [minCollateralUsd, assumedSolPriceUsd]
                  rw [hceil]
                  exact_mod_cast hq
        case isFalse hnotlong =>
          dsimp only
          split
          · rfl
          · split
            case isTrue hside =>
              split
              · rfl
              · rename_i hlt
                rcases h with ⟨ha, hb⟩ | ⟨ha, hb⟩
                · exact absurd hb hlt
                · exact absurd ha hnotlong
            case isFalse hside => exact absurd rfl hside

/-- C5 witness: an OPEN_SHORT intent with only $5 of USDC (below the $10
minimum collateral) at risk fraction 0.3 emits no open order. -/
theorem buildAndSendPerpsTx_min_collateral_guard_witness :
    (((⟨.OPEN_SHORT, 3/10, none⟩ : TradeIntent).action = .OPEN_SHORT ∧
        (5 : ℚ) < minCollateralUsd) ∨
      ((⟨.OPEN_SHORT, 3/10, none⟩ : TradeIntent).action = .OPEN_LONG ∧
        ((1000000000 : ℤ) : ℚ) / 1000000000 * assumedSolPriceUsd <
          minCollateralUsd)) ∧
    (buildAndSendPerpsTx ⟨.OPEN_SHORT, 3/10, none⟩ (some []) 1000000000 5
        0).isOpenOrder = false :=
  ⟨Or.inl ⟨rfl, by norm_num [minCollateralUsd]⟩,
   buildAndSendPerpsTx_min_collateral_guard _ _ _ _ _
     (Or.inl ⟨rfl, by norm_num [minCollateralUsd]⟩)⟩

/-- Every open order `openPerpsOrder` actually builds requests collateral
of exactly $10 and a notional of exactly 13,000,000 micro-dollars (intended
leverage 1.3×), because `targetUsd ≤ 10` forces the `max` chain to 13. -/
theorem openPerpsOrder_size (side : Side) (balanceUsd riskFraction : ℚ)
    (p : OpenOrder)
    (h : openPerpsOrder side balanceUsd riskFraction = .openOrder p) :
    p.collateralUsd = 10 ∧ p.sizeUsdDelta = 13000000 ∧
      p.intendedLeverage = 13/10 := by
  unfold openPerpsOrder at h
  dsimp only at h
  split at h
  · simp at h
  · have h1 : max 0 (min (balanceUsd * riskFraction) 10) ≤ 10 :=
      max_le (by norm_num) (le_trans (min_le_right _ _) (by norm_num))
    have h2 : max (max 0 (min (balanceUsd * riskFraction) 10))
        (minCollateralUsd * (12/10)) = minCollateralUsd * (12/10) :=
      max_eq_right (by rw [minCollateralUsd]; linarith)
    have h3 : max (minCollateralUsd * (12/10)) (minCollateralUsd * (13/10)) =
        minCollateralUsd * (13/10) :=
      max_eq_right (by norm_num [minCollateralUsd])
    cases h
    refine ⟨rfl, ?_, ?_⟩ <;>
      · dsimp only
        rw [h2, h3]
        norm_num [minCollateralUsd]

/-- C6: every open order that `buildAndSendPerpsTx` submits carries exactly
collateralUsd = 10 and sizeUsdDelta = 13,000,000 micro-dollars with
intended leverage 1.3×, independent of balance and risk fraction. -/
theorem buildAndSendPerpsTx_open_size_constant
    (intent : TradeIntent) (positions : Option (List RawPos))
    (balanceLamports : ℤ) (usdcBalance : ℚ) (now : ℚ) (p : OpenOrder)
    (h : buildAndSendPerpsTx intent positions balanceLamports usdcBalance now
        = .openOrder p) :
    p.collateralUsd = 10 ∧ p.sizeUsdDelta = 13000000 ∧
      p.intendedLeverage = 13/10 := by
  unfold buildAndSendPerpsTx at h
  split at h
  · simp at h
  · split at h
    · simp at h
    · rename_i l
      split at h
      · repeat' split at h
        all_goals simp_all
      · split at h
        case isTrue hlong =>
          dsimp only at h
          split at h
          · simp at h
          · split at h
            case isTrue hside => exact absurd hside (by simp)
            case isFalse hside =>
              split at h
              · simp at h
              · exact openPerpsOrder_size _ _ _ _ h
        case isFalse hnotlong =>
          dsimp only at h
          split at h
          · simp at h
          · split at h
            case isTrue hside =>
              split at h
              · simp at h
              · exact openPerpsOrder_size _ _ _ _ h
            case isFalse hside => exact absurd rfl hside

/-- C6 witness: a funded OPEN_SHORT open (USDC balance 50, risk 0.3) is
submitted with collateralUsd = 10 and sizeUsdDelta = 13,000,000 exactly. -/
theorem buildAndSendPerpsTx_open_size_constant_witness :
    buildAndSendPerpsTx ⟨.OPEN_SHORT, 3/10, none⟩ (some []) 1000000000 50 0 =
      .openOrder ⟨.short, USDC_MINT, USDC_MINT, 10000000, 10000000, 13000000,
        10, 13/10⟩ ∧
    ((⟨.short, USDC_MINT, USDC_MINT, 10000000, 10000000, 13000000, 10,
        13/10⟩ : OpenOrder).collateralUsd = 10 ∧
      (⟨.short, USDC_MINT, USDC_MINT, 10000000, 10000000, 13000000, 10,
        13/10⟩ : OpenOrder).sizeUsdDelta = 13000000 ∧
      (⟨.short, USDC_MINT, USDC_MINT, 10000000, 10000000, 13000000, 10,
        13/10⟩ : OpenOrder).intendedLeverage = 13/10) := by
  have heval : buildAndSendPerpsTx ⟨.OPEN_SHORT, 3/10, none⟩ (some [])
      1000000000 50 0 =
      .openOrder ⟨.short, USDC_MINT, USDC_MINT, 10000000, 10000000, 13000000,
        10, 13/10⟩ := by
    norm_num [buildAndSendPerpsTx, openPerpsOrder, min_def, max_def,
      assumedSolPriceUsd, minCollateralUsd]
    rfl
  exact ⟨heval,
    buildAndSendPerpsTx_open_size_constant _ _ _ _ _ _ heval⟩

/-- C10: when an exit trigger fires for the current normalized position but
its sizeUsd is unknown or not positive, no request at all is posted:
`buildAndSendPerpsTx` returns without building a close. -/
theorem buildAndSendPerpsTx_close_needs_size
    (intent : TradeIntent) (l : List RawPos) (balanceLamports : ℤ)
    (usdcBalance : ℚ) (now : ℚ) (pos : NormalizedPerpsPosition)
    (rest : List NormalizedPerpsPosition)
    (hnorm : l.filterMap normalizePerpsPosition = pos :: rest)
    (hexit : (evaluateExitDecision pos intent now).isSome = true)
    (hsize : pos.sizeUsd = none ∨ ∃ s, pos.sizeUsd = some s ∧ s ≤ 0) :
    buildAndSendPerpsTx intent (some l) balanceLamports usdcBalance now =
      .skip := by
  have hne : 0 < l.length := by
    cases l with
    | nil => simp at hnorm
    | cons a as => simp
  obtain ⟨r, hr⟩ : ∃ r, evaluateExitDecision pos intent now = some r :=
    Option.isSome_iff_exists.mp hexit
  unfold buildAndSendPerpsTx
  split
  · rfl
  · dsimp only
    rw [if_pos hne, hnorm]
    dsimp only
    rw [hr]
    rcases hsize with hs | ⟨s, hs, hle⟩
    · rw [hs]
    · rw [hs]
      dsimp only
      rw [if_neg (not_lt.mpr hle)]

/-- C10 witness: a LONG position (entry 100, mark 104) whose size fields are
all absent meets an OPEN_SHORT intent — the flip trigger fires, yet no
close request is built. -/
theorem buildAndSendPerpsTx_close_needs_size_witness :
    ([({ side := some "long", entryPriceUsd := .rnum 100,
          markPriceUsd := .rnum 104 } : RawPos)].filterMap
        normalizePerpsPosition =
      [⟨.long, some 100, some 104, none, none⟩]) ∧
    ((evaluateExitDecision ⟨.long, some 100, some 104, none, none⟩
        ⟨.OPEN_SHORT, 3/10, none⟩ 0).isSome = true) ∧
    ((⟨.long, some 100, some 104, none, none⟩ :
        NormalizedPerpsPosition).sizeUsd = none) ∧
    buildAndSendPerpsTx ⟨.OPEN_SHORT, 3/10, none⟩
        (some [({ side := some "long", entryPriceUsd := .rnum 100,
                  markPriceUsd := .rnum 104 } : RawPos)])
        1000000000 50 0 = .skip :=
  ⟨by rfl, by rfl, rfl,
   buildAndSendPerpsTx_close_needs_size _ _ _ _ _ _ _ (by rfl) (by rfl)
     (Or.inl rfl)⟩
